import Mathlib

/-
Shallow embedding of the vocal-metrics core of the repository:
  * `src/src/utils.py` — the `PASSAGGIO_CRITERIA` voice-part configuration table;
  * `src/src/audio_processor.py` — the octave-jump suppression pass of
    `AudioProcessor.extract_features` and `AudioProcessor.calculate_metrics`;
  * `src/app.py` — `generate_diagnosis`.

Frame data (F0 values, voicing probabilities, frequency bounds) is modelled
over ℚ; an F0 frame is `Option ℚ` with `none` standing for NaN (unvoiced).
Cents computations (`1200 * log2 ...`), the stability standard deviation and
the derived metrics live in ℝ via `Real.logb`.
-/

/-- One entry of the `PASSAGGIO_CRITERIA` table in `src/utils.py`:
the inclusive `range_hz` window `[lo, hi]` and the ordered `passaggio_hz` list. -/
structure PartCfg where
  lo : ℚ
  hi : ℚ
  passaggio : List ℚ
deriving DecidableEq

/-- The `PASSAGGIO_CRITERIA` dict of `src/utils.py`, as a partial map from
part name to configuration (`desc` fields are display-only and omitted). -/
def PASSAGGIO_CRITERIA : String → Option PartCfg
  | "Soprano" => some ⟨220, 1200, [349.23, 392.00]⟩
  | "Alto" => some ⟨174, 700, [329.63, 349.23]⟩
  | "Tenor" => some ⟨130, 523, [349.23]⟩
  | "Baritone" => some ⟨98, 392, [329.63]⟩
  | "Bass" => some ⟨65, 330, [293.66, 311.13]⟩
  | _ => none

/-- `PASSAGGIO_CRITERIA.get(voice_part, {}).get("range_hz", [50, 2000])`
(line 109 of `audio_processor.py`). -/
def voiceLimits (part : String) : ℚ × ℚ :=
  match PASSAGGIO_CRITERIA part with
  | some cfg => (cfg.lo, cfg.hi)
  | none => (50, 2000)

/-- `PASSAGGIO_CRITERIA.get(voice_part, {}).get("passaggio_hz", [])`
(line 164 of `audio_processor.py`). -/
def passaggioHzs (part : String) : List ℚ :=
  match PASSAGGIO_CRITERIA part with
  | some cfg => cfg.passaggio
  | none => []

/-- `primary_passaggio = passaggio_hzs[0] if passaggio_hzs else 300.0`
(line 165 of `audio_processor.py`). -/
def primaryPassaggio (part : String) : ℚ :=
  (passaggioHzs part).headD 300

/-- Interval between two frequencies in cents: `1200 * np.log2(x / y)`. -/
noncomputable def centsInterval (x y : ℚ) : ℝ :=
  1200 * Real.logb 2 ((x : ℝ) / (y : ℝ))

/-- One iteration of the octave-jump suppression loop of
`AudioProcessor.extract_features` (lines 75-87 of `audio_processor.py`):
given the carried `last_valid` value and the current frame, produce the
output frame and the `last_valid` value carried into the next iteration.
A NaN frame is skipped unchanged; a valid frame is invalidated when a
previous valid pitch exists (`last_valid > 0`) and the interval to it
exceeds 700 cents in absolute value, and otherwise is kept and becomes the
new `last_valid`. -/
noncomputable def octaveStep (last : ℚ) (f : Option ℚ) : Option ℚ × ℚ :=
  match f with
  | none => (none, last)
  | some v =>
    if 0 < last ∧ |centsInterval v last| > 700 then (none, last)
    else (some v, v)

/-- The octave-jump suppression loop over a whole F0 series, from a given
carried `last_valid` value. -/
noncomputable def octaveFilterAux (last : ℚ) : List (Option ℚ) → List (Option ℚ)
  | [] => []
  | f :: rest => (octaveStep last f).1 :: octaveFilterAux (octaveStep last f).2 rest

/-- The `last_valid` value after the loop has consumed a series. -/
noncomputable def octaveLastState (last : ℚ) (l : List (Option ℚ)) : ℚ :=
  l.foldl (fun s f => (octaveStep s f).2) last

/-- The whole octave-jump suppression pass: `last_valid` seeded with `0.0`
(line 74 of `audio_processor.py`). -/
noncomputable def octaveFilter (f0 : List (Option ℚ)) : List (Option ℚ) :=
  octaveFilterAux 0 f0

/-- The octave-jump pass as the spec words it: the carried state is an
`Option ℚ` seeded `none` ("no previous valid pitch yet"), a valid frame
is checked against the previous valid pitch only when one exists. -/
noncomputable def octaveFilterSpecAux (last : Option ℚ) :
    List (Option ℚ) → List (Option ℚ)
  | [] => []
  | none :: rest => none :: octaveFilterSpecAux last rest
  | some v :: rest =>
    match last with
    | none => some v :: octaveFilterSpecAux (some v) rest
    | some L =>
      if |centsInterval v L| > 700 then
        none :: octaveFilterSpecAux (some L) rest
      else
        some v :: octaveFilterSpecAux (some v) rest

/-- Spec-worded octave-jump pass, seeded with no previous valid pitch. -/
noncomputable def octaveFilterSpec (f0 : List (Option ℚ)) : List (Option ℚ) :=
  octaveFilterSpecAux none f0

/-- The per-frame validity test of `calculate_metrics` (lines 113-118 of
`audio_processor.py`): not NaN, confidence strictly above 0.3, and F0 within
the part's range inclusive. -/
def validFrame (part : String) (f : Option ℚ) (p : ℚ) : Bool :=
  match f with
  | none => false
  | some v =>
    decide ((3 / 10 : ℚ) < p) && decide ((voiceLimits part).1 ≤ v) &&
      decide (v ≤ (voiceLimits part).2)

/-- `voiced_f0 = f0[valid_mask]`: the F0 values of the mask-true frames, in
original order. -/
def voicedF0 (f0 : List (Option ℚ)) (probs : List ℚ) (part : String) : List ℚ :=
  (f0.zip probs).filterMap fun fp => if validFrame part fp.1 fp.2 then fp.1 else none

/-- `np.mean` over a rational list (0 on the empty list, which the code
never hits on this path). -/
def meanQ (l : List ℚ) : ℚ := l.sum / l.length

/-- `np.mean` over a real list. -/
noncomputable def meanR (l : List ℝ) : ℝ := l.sum / l.length

/-- `np.median`: sort, then take the middle element (odd length) or the
average of the two middle elements (even length). -/
def medianQ (l : List ℚ) : ℚ :=
  let s := List.insertionSort (· ≤ ·) l
  let n := l.length
  if n = 0 then 0
  else if n % 2 = 1 then s.getD (n / 2) 0
  else (s.getD (n / 2 - 1) 0 + s.getD (n / 2) 0) / 2

/-- `np.std` (population standard deviation, `ddof = 0`). -/
noncomputable def stdR (l : List ℝ) : ℝ :=
  Real.sqrt (meanR (l.map fun x => (x - meanR l) ^ 2))

/-- `cents_dev = 1200 * np.log2(xs / np.mean(xs))`: each value's deviation in
cents from the list's own mean (lines 182-183 / 187-188 of
`audio_processor.py`). -/
noncomputable def centsDev (l : List ℚ) : List ℝ :=
  l.map fun f => centsInterval f (meanQ l)

/-- The metrics dict returned by `AudioProcessor.calculate_metrics`, with its
keys in source order. -/
structure Metrics where
  accuracy : ℝ
  stability : ℝ
  drift : ℝ
  overshoot : ℝ
  mean_pitch_hz : ℝ
  voiced_ratio : ℝ
  confidence : String
  on_target_ratio : ℝ

/-- `voiced_ratio` (lines 123-125 of `audio_processor.py`): count of valid
frames over total frames, left at its `0.0` default when there are no
frames at all. -/
def voicedRatioQ (f0 : List (Option ℚ)) (probs : List ℚ) (part : String) : ℚ :=
  if 0 < f0.length then ((voicedF0 f0 probs part).length : ℚ) / (f0.length : ℚ) else 0

/-- Section "2. Pitch Accuracy" of `calculate_metrics` (lines 137-160):
the `(accuracy, on_target_ratio)` pair.  With a target, the per-frame error
is the absolute cents deviation from the target with no octave correction;
accuracy is the mean error clamped to at most 200, and the on-target ratio
is the fraction of errors within 50 cents.  With no target both stay at
their defaults (999, 0). -/
noncomputable def accuracyPair (voiced : List ℚ) : Option ℚ → ℝ × ℝ
  | some t =>
    let errs := voiced.map fun f => |centsInterval f t|
    (min 200 (meanR errs),
      ((errs.countP fun e => decide (e ≤ 50)) : ℝ) / (errs.length : ℝ))
  | none => (999, 0)

/-- Section "3. Pitch Stability" of `calculate_metrics` (lines 162-189):
standard deviation of the cents deviations from the mean, over the
pre-passaggio frames when more than 10 of them exist, and over the whole
voiced series otherwise. -/
noncomputable def stabilityOf (voiced : List ℚ) (part : String) : ℝ :=
  let pre := voiced.filter fun f => decide (f < primaryPassaggio part)
  if 10 < pre.length then stdR (centsDev pre) else stdR (centsDev voiced)

/-- Section "4. Pitch Drift" of `calculate_metrics` (lines 191-198): when
more than `2 * 20` voiced frames exist, the cents interval from the median
of the first 20 to the median of the last 20 (guarded by positivity of both
medians); otherwise the 999.0 default stands. -/
noncomputable def driftOf (voiced : List ℚ) : ℝ :=
  if 40 < voiced.length then
    let s := medianQ (voiced.take 20)
    let e := medianQ (voiced.drop (voiced.length - 20))
    if 0 < s ∧ 0 < e then 1200 * Real.logb 2 ((e : ℝ) / (s : ℝ)) else 999
  else 999

/-- `AudioProcessor.calculate_metrics` (lines 91-200 of `audio_processor.py`).
The caller resolves the optional target note name to a frequency
(`librosa.note_to_hz`), so the embedding takes `target_hz : Option ℚ`
directly.  `rms` is unused by the source function and omitted. -/
noncomputable def calculate_metrics (f0 : List (Option ℚ)) (probs : List ℚ)
    (target_hz : Option ℚ) (voice_part : String) : Metrics :=
  let voiced := voicedF0 f0 probs voice_part
  let vrQ := voicedRatioQ f0 probs voice_part
  if voiced = [] then
    { accuracy := 999, stability := 999, drift := 999, overshoot := 0,
      mean_pitch_hz := 0, voiced_ratio := (vrQ : ℝ), confidence := "Low",
      on_target_ratio := 0 }
  else
    { accuracy := (accuracyPair voiced target_hz).1,
      stability := stabilityOf voiced voice_part,
      drift := driftOf voiced,
      overshoot := 0,
      mean_pitch_hz := ((meanQ voiced : ℚ) : ℝ),
      voiced_ratio := (vrQ : ℝ),
      confidence := if vrQ < 7 / 10 then "Low" else "High",
      on_target_ratio := (accuracyPair voiced target_hz).2 }

/- Diagnosis generator, `generate_diagnosis` in `src/app.py` (lines 31-71).
Each threshold ladder contributes at most one statement; the statements are
collected in fixed order (accuracy, stability, drift, on-target ratio) and
joined with spaces.  The accuracy-deviation message interpolates the numeric
accuracy value in the source; the embedding keeps the fixed message text. -/

/-- Accuracy ladder failure message (no pitch detected / analysis failed). -/
def msgNoPitch : String := "음정이 감지되지 않았거나 분석에 실패했습니다. (소음/무음)"

/-- Accuracy ladder deviation message. -/
def msgAccDeviates : String := "피치가 목표음보다 평균 N cents 벗어났습니다. (정확도 주의)"

/-- Accuracy ladder excellence message. -/
def msgAccExcellent : String := "피치 정확도가 매우 우수합니다."

/-- Stability ladder wobble message. -/
def msgStabWobble : String := "음의 흔들림(Vibrato/Tremolo)이 다소 큽니다. 호흡 지탱을 확인하세요."

/-- Stability ladder straight-tone message. -/
def msgStabGood : String := "음이 매우 안정적입니다 (Straight Tone)."

/-- Drift ladder flat-drift message. -/
def msgFlatDrift : String := "끝음이 처지는 경향(Flat Drift)이 있습니다."

/-- Drift ladder sharp-drift message. -/
def msgSharpDrift : String := "끝음이 샵되는 경향(Sharp Drift)이 있습니다."

/-- On-target ladder off-target message. -/
def msgOffTarget : String := "음정이 불안정하여 목표음을 많이 벗어납니다. (정확도 < 60%)"

/-- On-target ladder intermittent-wander message. -/
def msgWander : String := "중간중간 음정이 흔들립니다. 호흡 지탱에 신경쓰세요."

/-- Default message when every ladder is silent. -/
def msgDefault : String := "전반적으로 안정적인 발성입니다. 세부 지표인 비브라토 속도 등을 체크해보세요."

/-- The accuracy threshold ladder of `generate_diagnosis` (lines 36-41). -/
noncomputable def accuracyStmt (acc : ℝ) : Option String :=
  if acc ≥ 900 then some msgNoPitch
  else if acc > 50 then some msgAccDeviates
  else if acc < 20 then some msgAccExcellent
  else none

/-- The stability threshold ladder of `generate_diagnosis` (lines 44-49):
a stability at its own sentinel (≥ 900) contributes nothing (`pass`). -/
noncomputable def stabilityStmt (stab : ℝ) : Option String :=
  if stab ≥ 900 then none
  else if stab > 30 then some msgStabWobble
  else if stab < 10 ∧ stab ≥ 0 then some msgStabGood
  else none

/-- The drift threshold ladder of `generate_diagnosis` (lines 52-55):
only `drift < -20` and `drift > 20` are tested, with no sentinel guard. -/
noncomputable def driftStmt (drift : ℝ) : Option String :=
  if drift < -20 then some msgFlatDrift
  else if drift > 20 then some msgSharpDrift
  else none

/-- The on-target-ratio threshold ladder of `generate_diagnosis`
(lines 63-66). -/
noncomputable def onTargetStmt (otr : ℝ) : Option String :=
  if otr < 0.6 then some msgOffTarget
  else if otr < 0.85 then some msgWander
  else none

/-- The ordered list of diagnostic statements built by `generate_diagnosis`,
one per non-silent ladder; the generic default when all are silent. -/
noncomputable def diagnosisList (acc stab drift otr : ℝ) : List String :=
  let stmts :=
    [accuracyStmt acc, stabilityStmt stab, driftStmt drift, onTargetStmt otr].filterMap id
  if stmts = [] then [msgDefault] else stmts

/-- `generate_diagnosis` (lines 31-71 of `src/app.py`): the statements joined
with a single space. -/
noncomputable def generate_diagnosis (acc stab drift otr : ℝ) : String :=
  String.intercalate " " (diagnosisList acc stab drift otr)

/- ## Helper lemmas -/

lemma cfg_lo_pos {part : String} {cfg : PartCfg}
    (h : PASSAGGIO_CRITERIA part = some cfg) : 0 < cfg.lo := by
  unfold PASSAGGIO_CRITERIA at h
  split at h <;> simp_all <;> norm_num [← h]

lemma voiceLimits_lo_pos (part : String) : 0 < (voiceLimits part).1 := by
  unfold voiceLimits
  cases hc : PASSAGGIO_CRITERIA part with
  | none => norm_num
  | some cfg => simpa using cfg_lo_pos hc

lemma mem_voicedF0_bounds {f0 : List (Option ℚ)} {probs : List ℚ} {part : String}
    {x : ℚ} (hx : x ∈ voicedF0 f0 probs part) :
    (voiceLimits part).1 ≤ x ∧ x ≤ (voiceLimits part).2 := by
  unfold voicedF0 at hx
  rw [List.mem_filterMap] at hx
  obtain ⟨fp, -, hfp⟩ := hx
  by_cases hv : validFrame part fp.1 fp.2
  · rw [if_pos hv] at hfp
    cases h1 : fp.1 with
    | none => rw [h1] at hfp; cases hfp
    | some v =>
      rw [h1] at hfp
      cases hfp
      unfold validFrame at hv
      rw [h1] at hv
      simp only [Bool.and_eq_true, decide_eq_true_eq] at hv
      exact ⟨hv.1.2, hv.2⟩
  · rw [if_neg hv] at hfp; cases hfp

lemma voicedF0_pos {f0 : List (Option ℚ)} {probs : List ℚ} {part : String}
    {x : ℚ} (hx : x ∈ voicedF0 f0 probs part) : 0 < x :=
  lt_of_lt_of_le (voiceLimits_lo_pos part) (mem_voicedF0_bounds hx).1

lemma voicedF0_nil (probs : List ℚ) (part : String) : voicedF0 [] probs part = [] := rfl

lemma voicedF0_cons (f : Option ℚ) (f0 : List (Option ℚ)) (p : ℚ) (probs : List ℚ)
    (part : String) :
    voicedF0 (f :: f0) (p :: probs) part =
      (if validFrame part f p = true then f.toList else []) ++ voicedF0 f0 probs part := by
  unfold voicedF0
  rw [List.zip_cons_cons, List.filterMap_cons]
  by_cases h : validFrame part f p = true
  · rw [if_pos h, if_pos h]
    cases f with
    | none => simp [validFrame] at h
    | some v => simp
  · rw [if_neg h, if_neg h]
    simp

lemma calculate_metrics_of_empty (f0 : List (Option ℚ)) (probs : List ℚ)
    (t : Option ℚ) (part : String) (h : voicedF0 f0 probs part = []) :
    calculate_metrics f0 probs t part =
      { accuracy := 999, stability := 999, drift := 999, overshoot := 0,
        mean_pitch_hz := 0, voiced_ratio := ((voicedRatioQ f0 probs part : ℚ) : ℝ),
        confidence := "Low", on_target_ratio := 0 } := by
  unfold calculate_metrics
  rw [if_pos h]

lemma calculate_metrics_of_ne (f0 : List (Option ℚ)) (probs : List ℚ)
    (t : Option ℚ) (part : String) (h : voicedF0 f0 probs part ≠ []) :
    calculate_metrics f0 probs t part =
      { accuracy := (accuracyPair (voicedF0 f0 probs part) t).1,
        stability := stabilityOf (voicedF0 f0 probs part) part,
        drift := driftOf (voicedF0 f0 probs part),
        overshoot := 0,
        mean_pitch_hz := ((meanQ (voicedF0 f0 probs part) : ℚ) : ℝ),
        voiced_ratio := ((voicedRatioQ f0 probs part : ℚ) : ℝ),
        confidence := if voicedRatioQ f0 probs part < 7 / 10 then "Low" else "High",
        on_target_ratio := (accuracyPair (voicedF0 f0 probs part) t).2 } := by
  unfold calculate_metrics
  rw [if_neg h]

/- ## C1 -/

/-- C1: when no frame passes the validity mask (`voiced_f0` empty),
`calculate_metrics` returns the failure sentinels: accuracy, stability and
drift all 999.0, on-target ratio 0.0 and confidence label `"Low"`, and in
particular none of accuracy/stability/drift is zero. -/
theorem C1_no_voiced_frames_sentinels (f0 : List (Option ℚ)) (probs : List ℚ)
    (t : Option ℚ) (part : String) (h : voicedF0 f0 probs part = []) :
    (calculate_metrics f0 probs t part).accuracy = 999 ∧
    (calculate_metrics f0 probs t part).stability = 999 ∧
    (calculate_metrics f0 probs t part).drift = 999 ∧
    (calculate_metrics f0 probs t part).on_target_ratio = 0 ∧
    (calculate_metrics f0 probs t part).confidence = "Low" ∧
    (calculate_metrics f0 probs t part).accuracy ≠ 0 ∧
    (calculate_metrics f0 probs t part).stability ≠ 0 ∧
    (calculate_metrics f0 probs t part).drift ≠ 0 := by
  rw [calculate_metrics_of_empty f0 probs t part h]
  norm_num

/-- Witness for C1 on a concrete two-frame input: one frame is in range but
has confidence 0.2 ≤ 0.3, the other is NaN, so no frame passes the mask. -/
theorem C1_witness :
    voicedF0 [some 440, none] [0.2, 0.9] "Soprano" = [] ∧
    (calculate_metrics [some 440, none] [0.2, 0.9] none "Soprano").accuracy = 999 ∧
    (calculate_metrics [some 440, none] [0.2, 0.9] none "Soprano").confidence = "Low" := by
  have h : voicedF0 [some 440, none] [0.2, 0.9] "Soprano" = [] := by
    norm_num [voicedF0_cons, voicedF0_nil, validFrame, voiceLimits, PASSAGGIO_CRITERIA]
  exact ⟨h,
    (C1_no_voiced_frames_sentinels [some 440, none] [0.2, 0.9] none "Soprano" h).1,
    (C1_no_voiced_frames_sentinels [some 440, none] [0.2, 0.9] none "Soprano" h).2.2.2.2.1⟩

/- ## C9 -/

lemma driftOf_of_le {voiced : List ℚ} (h : voiced.length ≤ 40) : driftOf voiced = 999 := by
  unfold driftOf
  rw [if_neg (by omega)]

lemma mem_diagnosisList_of_driftStmt {a s d o : ℝ} {msg : String}
    (h : driftStmt d = some msg) : msg ∈ diagnosisList a s d o := by
  have hmem : msg ∈ [accuracyStmt a, stabilityStmt s, driftStmt d, onTargetStmt o].filterMap id := by
    rw [List.mem_filterMap]
    refine ⟨driftStmt d, ?_, h⟩
    simp
  simp only [diagnosisList]
  by_cases he : [accuracyStmt a, stabilityStmt s, driftStmt d, onTargetStmt o].filterMap id = []
  · rw [he] at hmem
    simp at hmem
  · rw [if_neg he]
    exact hmem

lemma driftStmt_sentinel : driftStmt 999 = some msgSharpDrift := by
  unfold driftStmt
  rw [if_neg (by norm_num), if_pos (by norm_num)]

/-- C9: whenever `voiced_f0` has 40 or fewer frames (including full silence)
the drift metric is left at its 999.0 sentinel, and the diagnosis drift
ladder — which tests only `drift < -20` and `drift > 20` with no sentinel
guard — then appends the "sharp drift at phrase end" statement, so every
analysis with uncomputed drift is diagnosed as drifting sharp. -/
theorem C9_drift_sentinel_sharp_diagnosis (f0 : List (Option ℚ)) (probs : List ℚ)
    (t : Option ℚ) (part : String)
    (h : (voicedF0 f0 probs part).length ≤ 40) :
    (calculate_metrics f0 probs t part).drift = 999 ∧
    msgSharpDrift ∈ diagnosisList (calculate_metrics f0 probs t part).accuracy
      (calculate_metrics f0 probs t part).stability
      (calculate_metrics f0 probs t part).drift
      (calculate_metrics f0 probs t part).on_target_ratio := by
  have hd : (calculate_metrics f0 probs t part).drift = 999 := by
    by_cases hv : voicedF0 f0 probs part = []
    · rw [calculate_metrics_of_empty f0 probs t part hv]
    · rw [calculate_metrics_of_ne f0 probs t part hv]
      exact driftOf_of_le h
  refine ⟨hd, ?_⟩
  rw [hd]
  exact mem_diagnosisList_of_driftStmt driftStmt_sentinel

/-- Witness for C9 at the empty input: no frames at all, so drift stays at
the sentinel and the sharp-drift message is emitted. -/
theorem C9_witness :
    (calculate_metrics [] [] none "Soprano").drift = 999 ∧
    msgSharpDrift ∈ diagnosisList (calculate_metrics [] [] none "Soprano").accuracy
      (calculate_metrics [] [] none "Soprano").stability
      (calculate_metrics [] [] none "Soprano").drift
      (calculate_metrics [] [] none "Soprano").on_target_ratio :=
  C9_drift_sentinel_sharp_diagnosis [] [] none "Soprano" (by simp [voicedF0_nil])

/- ## C7 -/

/-- C7 counterexample: at accuracy 999 (the accuracy ladder's hard-failure
sentinel) and stability 35, the stability ladder still appends its wobble
statement — the generated list holds both messages — refuting the claim that
a hard accuracy failure suppresses the stability statement for every value
of the stability metric. -/
theorem C7_counterexample_stability_not_suppressed :
    (900 : ℝ) ≤ 999 ∧ accuracyStmt 999 = some msgNoPitch ∧
    stabilityStmt 35 = some msgStabWobble ∧
    diagnosisList 999 35 0 1 = [msgNoPitch, msgStabWobble] := by
  have ha : accuracyStmt 999 = some msgNoPitch := by
    unfold accuracyStmt
    rw [if_pos (by norm_num)]
  have hs : stabilityStmt 35 = some msgStabWobble := by
    unfold stabilityStmt
    rw [if_neg (by norm_num), if_pos (by norm_num)]
  have hd : driftStmt 0 = none := by
    unfold driftStmt
    rw [if_neg (by norm_num), if_neg (by norm_num)]
  have ho : onTargetStmt 1 = none := by
    unfold onTargetStmt
    rw [if_neg (by norm_num), if_neg (by norm_num)]
  refine ⟨by norm_num, ha, hs, ?_⟩
  simp only [diagnosisList, ha, hs, hd, ho]
  simp

/-- C7 amended: the stability ladder suppresses its statement exactly when
the stability metric itself is at its sentinel (≥ 900); since an empty
voiced set leaves both accuracy and stability at 999, the no-pitch hard
failure carries no stability statement in that case, but when accuracy is
at its sentinel while stability was computed (no target note supplied) the
stability ladder may still append its own statement. -/
theorem C7_amended_stability_guard :
    (∀ s : ℝ, 900 ≤ s → stabilityStmt s = none) ∧
    (∀ (f0 : List (Option ℚ)) (probs : List ℚ) (t : Option ℚ) (part : String),
      voicedF0 f0 probs part = [] →
      accuracyStmt (calculate_metrics f0 probs t part).accuracy = some msgNoPitch ∧
      stabilityStmt (calculate_metrics f0 probs t part).stability = none) := by
  constructor
  · intro s hs
    unfold stabilityStmt
    rw [if_pos hs]
  · intro f0 probs t part hv
    rw [calculate_metrics_of_empty f0 probs t part hv]
    constructor
    · unfold accuracyStmt
      rw [if_pos (by norm_num)]
    · unfold stabilityStmt
      rw [if_pos (by norm_num)]

/-- Witness for the amended C7 at stability 999 and at a concrete no-voiced
input. -/
theorem C7_witness :
    stabilityStmt 999 = none ∧
    accuracyStmt (calculate_metrics [some 440, none] [0.2, 0.9] none "Soprano").accuracy
      = some msgNoPitch ∧
    stabilityStmt (calculate_metrics [some 440, none] [0.2, 0.9] none "Soprano").stability
      = none := by
  have h : voicedF0 [some 440, none] [0.2, 0.9] "Soprano" = [] := by
    norm_num [voicedF0_cons, voicedF0_nil, validFrame, voiceLimits, PASSAGGIO_CRITERIA]
  exact ⟨C7_amended_stability_guard.1 999 (by norm_num),
    (C7_amended_stability_guard.2 [some 440, none] [0.2, 0.9] none "Soprano" h).1,
    (C7_amended_stability_guard.2 [some 440, none] [0.2, 0.9] none "Soprano" h).2⟩

/- ## C8 -/

/-- C8 counterexample: "Countertenor" is absent from the configuration
table (and a 60 Hz frame is below every configured part's range), yet
`calculate_metrics` silently substitutes the generic `[50, 2000]` range and
proceeds: it computes a mean pitch of 60 Hz with confidence label `"High"`,
flagging nothing — refuting the claim that the metric layer never silently
proceeds with a substituted generic frequency range. -/
theorem C8_counterexample_silent_fallback :
    PASSAGGIO_CRITERIA "Countertenor" = none ∧
    voiceLimits "Countertenor" = (50, 2000) ∧
    (∀ (part : String) (cfg : PartCfg),
      PASSAGGIO_CRITERIA part = some cfg → ¬ cfg.lo ≤ 60) ∧
    (calculate_metrics [some 60] [1] none "Countertenor").mean_pitch_hz = 60 ∧
    (calculate_metrics [some 60] [1] none "Countertenor").confidence = "High" := by
  have hnone : PASSAGGIO_CRITERIA "Countertenor" = none := rfl
  have hlim : voiceLimits "Countertenor" = (50, 2000) := by
    unfold voiceLimits
    rw [hnone]
  have hv : voicedF0 [some 60] [1] "Countertenor" = [60] := by
    rw [voicedF0_cons, voicedF0_nil]
    rw [if_pos ?_]
    · simp
    · simp only [validFrame, hlim]
      norm_num
  have hne : voicedF0 [some 60] [1] "Countertenor" ≠ [] := by
    rw [hv]
    simp
  refine ⟨hnone, hlim, ?_, ?_, ?_⟩
  · intro part cfg h
    unfold PASSAGGIO_CRITERIA at h
    split at h <;> simp_all <;> norm_num [← h]
  · rw [calculate_metrics_of_ne [some 60] [1] none "Countertenor" hne]
    show ((meanQ (voicedF0 [some 60] [1] "Countertenor") : ℚ) : ℝ) = 60
    rw [hv]
    norm_num [meanQ]
  · rw [calculate_metrics_of_ne [some 60] [1] none "Countertenor" hne]
    show (if voicedRatioQ [some 60] [1] "Countertenor" < 7 / 10 then "Low" else "High") = "High"
    rw [if_neg ?_]
    unfold voicedRatioQ
    rw [hv]
    norm_num

/-- C8 amended: for every part name absent from the configuration table,
`calculate_metrics` silently substitutes the generic range `[50, 2000]` and
the default 300 Hz primary passaggio and proceeds with normal metric
computation (e.g. it accepts a 60 Hz frame that every configured part would
reject, reports its mean pitch and labels the result `"High"` confidence);
no error or flag is raised in the metric layer. -/
theorem C8_amended_generic_range (part : String) (h : PASSAGGIO_CRITERIA part = none) :
    voiceLimits part = (50, 2000) ∧ primaryPassaggio part = 300 ∧
    (calculate_metrics [some 60] [1] none part).mean_pitch_hz = 60 ∧
    (calculate_metrics [some 60] [1] none part).confidence = "High" := by
  have hlim : voiceLimits part = (50, 2000) := by
    unfold voiceLimits
    rw [h]
  have hpass : primaryPassaggio part = 300 := by
    unfold primaryPassaggio passaggioHzs
    rw [h]
    rfl
  have hv : voicedF0 [some 60] [1] part = [60] := by
    rw [voicedF0_cons, voicedF0_nil]
    rw [if_pos ?_]
    · simp
    · simp only [validFrame, hlim]
      norm_num
  have hne : voicedF0 [some 60] [1] part ≠ [] := by
    rw [hv]
    simp
  refine ⟨hlim, hpass, ?_, ?_⟩
  · rw [calculate_metrics_of_ne [some 60] [1] none part hne]
    show ((meanQ (voicedF0 [some 60] [1] part) : ℚ) : ℝ) = 60
    rw [hv]
    norm_num [meanQ]
  · rw [calculate_metrics_of_ne [some 60] [1] none part hne]
    show (if voicedRatioQ [some 60] [1] part < 7 / 10 then "Low" else "High") = "High"
    rw [if_neg ?_]
    unfold voicedRatioQ
    rw [hv]
    norm_num

/-- Witness for the amended C8 at the unknown part name "Countertenor". -/
theorem C8_witness :
    voiceLimits "Countertenor" = (50, 2000) ∧
    primaryPassaggio "Countertenor" = 300 ∧
    (calculate_metrics [some 60] [1] none "Countertenor").mean_pitch_hz = 60 ∧
    (calculate_metrics [some 60] [1] none "Countertenor").confidence = "High" :=
  C8_amended_generic_range "Countertenor" rfl

/- ## C3 -/

lemma meanR_replicate {n : ℕ} (hn : n ≠ 0) (x : ℝ) : meanR (List.replicate n x) = x := by
  unfold meanR
  rw [List.sum_replicate, List.length_replicate, nsmul_eq_mul]
  have hn' : (n : ℝ) ≠ 0 := Nat.cast_ne_zero.2 hn
  field_simp

lemma meanQ_replicate {n : ℕ} (hn : n ≠ 0) (x : ℚ) : meanQ (List.replicate n x) = x := by
  unfold meanQ
  rw [List.sum_replicate, List.length_replicate, nsmul_eq_mul]
  have hn' : (n : ℚ) ≠ 0 := Nat.cast_ne_zero.2 hn
  field_simp

/-- C3: with a target note supplied and a non-empty voiced set, accuracy is
the mean absolute cents deviation from the target clamped to at most 200,
with no octave folding; hence a voiced set at exactly double the target
frequency yields the clamped value 200 rather than an octave-corrected
near-zero value. -/
theorem C3_accuracy_mean_no_octave_fold (f0 : List (Option ℚ)) (probs : List ℚ)
    (part : String) (t : ℚ) (hne : voicedF0 f0 probs part ≠ []) :
    (calculate_metrics f0 probs (some t) part).accuracy
      = min 200 (meanR ((voicedF0 f0 probs part).map fun f => |centsInterval f t|)) ∧
    (∀ n : ℕ, 0 < n → 0 < t →
      voicedF0 f0 probs part = List.replicate n (2 * t) →
      (calculate_metrics f0 probs (some t) part).accuracy = 200) := by
  constructor
  · rw [calculate_metrics_of_ne f0 probs (some t) part hne]
    show (accuracyPair (voicedF0 f0 probs part) (some t)).1 = _
    simp only [accuracyPair]
  · intro n hn ht hrep
    rw [calculate_metrics_of_ne f0 probs (some t) part hne]
    show (accuracyPair (voicedF0 f0 probs part) (some t)).1 = 200
    rw [hrep]
    simp only [accuracyPair]
    rw [List.map_replicate]
    have ht' : ((t : ℚ) : ℝ) ≠ 0 := Rat.cast_ne_zero.2 ht.ne'
    have hc : |centsInterval (2 * t) t| = 1200 := by
      unfold centsInterval
      have h2 : ((2 * t : ℚ) : ℝ) / ((t : ℚ) : ℝ) = 2 := by
        push_cast
        rw [mul_div_assoc, div_self ht', mul_one]
      rw [h2, Real.logb_self_eq_one (by norm_num)]
      norm_num
    rw [hc, meanR_replicate hn.ne' 1200]
    norm_num

/-- Witness for C3: one voiced frame at 600 Hz against a 300 Hz target gives
the clamped accuracy 200. -/
theorem C3_witness :
    voicedF0 [some 600] [1] "Soprano" = List.replicate 1 (2 * 300 : ℚ) ∧
    (calculate_metrics [some 600] [1] (some 300) "Soprano").accuracy = 200 := by
  have hv : voicedF0 [some 600] [1] "Soprano" = [600] := by
    norm_num [voicedF0_cons, voicedF0_nil, validFrame, voiceLimits, PASSAGGIO_CRITERIA]
  have hrep : voicedF0 [some 600] [1] "Soprano" = List.replicate 1 (2 * 300 : ℚ) := by
    rw [hv]
    norm_num
  exact ⟨hrep,
    (C3_accuracy_mean_no_octave_fold [some 600] [1] "Soprano" 300
      (by rw [hv]; simp)).2 1 one_pos (by norm_num) hrep⟩

/- ## C4 -/

lemma voicedF0_length_eq_countP (f0 : List (Option ℚ)) (probs : List ℚ) (part : String) :
    (voicedF0 f0 probs part).length
      = (f0.zip probs).countP fun fp => validFrame part fp.1 fp.2 := by
  unfold voicedF0
  induction f0.zip probs with
  | nil => rfl
  | cons fp l ih =>
    rw [List.filterMap_cons, List.countP_cons]
    cases h1 : fp.1 with
    | none =>
      have hfalse : validFrame part fp.1 fp.2 = false := by
        rw [h1]
        rfl
      simp [h1, hfalse, ih]
      rfl
    | some v =>
      by_cases h : validFrame part (some v) fp.2 = true
      · simp [h1, h, ih]
      · simp [h1, h, ih]

lemma metrics_voiced_ratio (f0 : List (Option ℚ)) (probs : List ℚ)
    (t : Option ℚ) (part : String) :
    (calculate_metrics f0 probs t part).voiced_ratio
      = ((voicedRatioQ f0 probs part : ℚ) : ℝ) := by
  by_cases hv : voicedF0 f0 probs part = []
  · rw [calculate_metrics_of_empty f0 probs t part hv]
  · rw [calculate_metrics_of_ne f0 probs t part hv]

/-- C4: a frame passes the validity mask exactly when its F0 is present
(not NaN), its voicing confidence strictly exceeds 0.3, and its F0 lies
within the part's `range_hz` inclusive; for a non-empty series the voiced
ratio is the number of mask-true frames over the total frame count, and the
confidence label is `"Low"` exactly when that ratio is below 0.7, without
blocking the metric computation (the mean pitch is still computed whenever
any frame is voiced). -/
theorem C4_validity_mask_ratio_label (f0 : List (Option ℚ)) (probs : List ℚ)
    (t : Option ℚ) (part : String) (cfg : PartCfg)
    (hcfg : PASSAGGIO_CRITERIA part = some cfg) (hne : f0 ≠ []) :
    (∀ (f : Option ℚ) (p : ℚ), validFrame part f p = true ↔
      ∃ v : ℚ, f = some v ∧ (3 / 10 : ℚ) < p ∧ cfg.lo ≤ v ∧ v ≤ cfg.hi) ∧
    (calculate_metrics f0 probs t part).voiced_ratio
      = (((f0.zip probs).countP fun fp => validFrame part fp.1 fp.2 : ℕ) : ℝ)
          / (f0.length : ℝ) ∧
    ((calculate_metrics f0 probs t part).confidence = "Low" ↔
      (calculate_metrics f0 probs t part).voiced_ratio < 0.7) ∧
    (voicedF0 f0 probs part ≠ [] →
      (calculate_metrics f0 probs t part).mean_pitch_hz
        = ((meanQ (voicedF0 f0 probs part) : ℚ) : ℝ)) := by
  have hlim : voiceLimits part = (cfg.lo, cfg.hi) := by
    unfold voiceLimits
    rw [hcfg]
  have hlen : 0 < f0.length := List.length_pos.2 hne
  have hratio : (calculate_metrics f0 probs t part).voiced_ratio
      = (((f0.zip probs).countP fun fp => validFrame part fp.1 fp.2 : ℕ) : ℝ)
          / (f0.length : ℝ) := by
    rw [metrics_voiced_ratio f0 probs t part]
    unfold voicedRatioQ
    rw [if_pos hlen, voicedF0_length_eq_countP]
    push_cast
    ring
  have hcast : ((voicedRatioQ f0 probs part : ℚ) : ℝ) < 0.7
      ↔ voicedRatioQ f0 probs part < 7 / 10 := by
    rw [show (0.7 : ℝ) = ((7 / 10 : ℚ) : ℝ) by norm_num]
    exact Rat.cast_lt
  refine ⟨?_, hratio, ?_, ?_⟩
  · intro f p
    cases f with
    | none => simp [validFrame]
    | some v => simp [validFrame, hlim, and_assoc]
  · by_cases hv : voicedF0 f0 probs part = []
    · have hconf : (calculate_metrics f0 probs t part).confidence = "Low" := by
        rw [calculate_metrics_of_empty f0 probs t part hv]
      have hz : voicedRatioQ f0 probs part = 0 := by
        unfold voicedRatioQ
        rw [if_pos hlen, hv]
        simp
      have hlt : (calculate_metrics f0 probs t part).voiced_ratio < 0.7 := by
        rw [metrics_voiced_ratio f0 probs t part, hz]
        norm_num
      simp [hconf, hlt]
    · have hconf : (calculate_metrics f0 probs t part).confidence
          = if voicedRatioQ f0 probs part < 7 / 10 then "Low" else "High" := by
        rw [calculate_metrics_of_ne f0 probs t part hv]
      by_cases hlt : voicedRatioQ f0 probs part < 7 / 10
      · have hr : (calculate_metrics f0 probs t part).voiced_ratio < 0.7 := by
          rw [metrics_voiced_ratio f0 probs t part]
          exact hcast.2 hlt
        rw [hconf, if_pos hlt]
        simp [hr]
      · have hr : ¬ (calculate_metrics f0 probs t part).voiced_ratio < 0.7 := by
          rw [metrics_voiced_ratio f0 probs t part]
          exact fun hc => hlt (hcast.1 hc)
        rw [hconf, if_neg hlt]
        simp [hr]
  · intro hv
    rw [calculate_metrics_of_ne f0 probs t part hv]

/-- Witness for C4: a two-frame Soprano input with one valid frame
(440 Hz at confidence 0.9) and one NaN frame. -/
theorem C4_witness :
    (validFrame "Soprano" (some 440) 0.9 = true ↔
      ∃ v : ℚ, some (440 : ℚ) = some v
        ∧ (3 / 10 : ℚ) < 0.9 ∧ (220 : ℚ) ≤ v ∧ v ≤ 1200) ∧
    (calculate_metrics [some 440, none] [0.9, 0.9] none "Soprano").voiced_ratio
      = ((([some 440, none].zip [(0.9 : ℚ), 0.9]).countP
          fun fp => validFrame "Soprano" fp.1 fp.2 : ℕ) : ℝ) / 2 ∧
    ((calculate_metrics [some 440, none] [0.9, 0.9] none "Soprano").confidence = "Low" ↔
      (calculate_metrics [some 440, none] [0.9, 0.9] none "Soprano").voiced_ratio < 0.7) := by
  have h := C4_validity_mask_ratio_label [some 440, none] [0.9, 0.9] none "Soprano"
    ⟨220, 1200, [349.23, 392.00]⟩ rfl (by simp)
  refine ⟨?_, ?_, h.2.2.1⟩
  · simpa using h.1 (some 440) 0.9
  · simpa using h.2.1

/- ## C5 -/

lemma stdR_replicate_zero (n : ℕ) : stdR (List.replicate n (0 : ℝ)) = 0 := by
  have h1 : meanR (List.replicate n (0 : ℝ)) = 0 := by
    unfold meanR
    rw [List.sum_replicate]
    simp
  unfold stdR
  rw [h1, List.map_replicate]
  rw [show ((0 : ℝ) - 0) ^ 2 = 0 by norm_num, h1, Real.sqrt_zero]

lemma centsInterval_self {c : ℚ} (hc : c ≠ 0) : centsInterval c c = 0 := by
  unfold centsInterval
  rw [div_self (Rat.cast_ne_zero.2 hc), Real.logb_one]
  norm_num

lemma stdR_centsDev_replicate {n : ℕ} {c : ℚ} (hn : n ≠ 0) (hc : c ≠ 0) :
    stdR (centsDev (List.replicate n c)) = 0 := by
  unfold centsDev
  rw [meanQ_replicate hn, List.map_replicate, centsInterval_self hc]
  exact stdR_replicate_zero n

/-- C5: for a non-empty voiced set, stability is the standard deviation of
the cents deviations from the mean over the frames strictly below the
part's first passaggio frequency when more than 10 such frames exist, and
over the whole voiced set otherwise; a constant pre-passaggio region of
more than 10 identical frames therefore yields stability 0. -/
theorem C5_stability_pre_passaggio (f0 : List (Option ℚ)) (probs : List ℚ)
    (t : Option ℚ) (part : String) (hne : voicedF0 f0 probs part ≠ []) :
    (10 < ((voicedF0 f0 probs part).filter
        fun f => decide (f < primaryPassaggio part)).length →
      (calculate_metrics f0 probs t part).stability
        = stdR (centsDev ((voicedF0 f0 probs part).filter
            fun f => decide (f < primaryPassaggio part)))) ∧
    (((voicedF0 f0 probs part).filter
        fun f => decide (f < primaryPassaggio part)).length ≤ 10 →
      (calculate_metrics f0 probs t part).stability
        = stdR (centsDev (voicedF0 f0 probs part))) ∧
    (∀ (n : ℕ) (c : ℚ), 10 < n →
      ((voicedF0 f0 probs part).filter
        fun f => decide (f < primaryPassaggio part)) = List.replicate n c →
      (calculate_metrics f0 probs t part).stability = 0) := by
  have hst : (calculate_metrics f0 probs t part).stability
      = stabilityOf (voicedF0 f0 probs part) part := by
    rw [calculate_metrics_of_ne f0 probs t part hne]
  refine ⟨?_, ?_, ?_⟩
  · intro h
    rw [hst]
    simp only [stabilityOf]
    rw [if_pos h]
  · intro h
    rw [hst]
    simp only [stabilityOf]
    rw [if_neg (by omega)]
  · intro n c hn hrep
    have hc : c ≠ 0 := by
      have hcmem : c ∈ (voicedF0 f0 probs part).filter
          fun f => decide (f < primaryPassaggio part) := by
        rw [hrep]
        exact List.mem_replicate.2 ⟨by omega, rfl⟩
      have hcv : c ∈ voicedF0 f0 probs part := List.mem_of_mem_filter hcmem
      exact (voicedF0_pos hcv).ne'
    have hlen : 10 < ((voicedF0 f0 probs part).filter
        fun f => decide (f < primaryPassaggio part)).length := by
      rw [hrep, List.length_replicate]
      exact hn
    rw [hst]
    simp only [stabilityOf]
    rw [if_pos hlen, hrep]
    exact stdR_centsDev_replicate (by omega) hc

/-- Witness for C5: twelve identical 300 Hz Soprano frames lie entirely
below the first passaggio (349.23 Hz) and give stability 0. -/
theorem C5_witness :
    (calculate_metrics (List.replicate 12 (some 300)) (List.replicate 12 1)
      none "Soprano").stability = 0 := by
  have hv : voicedF0 (List.replicate 12 (some 300)) (List.replicate 12 1) "Soprano"
      = List.replicate 12 300 := by
    norm_num [List.replicate_succ, voicedF0_cons, voicedF0_nil, validFrame,
      voiceLimits, PASSAGGIO_CRITERIA]
  have hpre : ((voicedF0 (List.replicate 12 (some 300)) (List.replicate 12 1) "Soprano").filter
      fun f => decide (f < primaryPassaggio "Soprano")) = List.replicate 12 300 := by
    rw [hv]
    norm_num [List.replicate_succ, List.filter_cons, primaryPassaggio, passaggioHzs,
      PASSAGGIO_CRITERIA]
  exact (C5_stability_pre_passaggio (List.replicate 12 (some 300)) (List.replicate 12 1)
    none "Soprano" (by rw [hv]; simp)).2.2 12 300 (by omega) hpre

/- ## C2 -/

lemma octaveStep_keep {last v : ℚ} (h : ¬(0 < last ∧ |centsInterval v last| > 700)) :
    octaveStep last (some v) = (some v, v) := by
  show (if 0 < last ∧ |centsInterval v last| > 700
    then ((none : Option ℚ), last) else (some v, v)) = (some v, v)
  rw [if_neg h]

lemma octaveStep_reject {last v : ℚ} (h1 : 0 < last) (h2 : |centsInterval v last| > 700) :
    octaveStep last (some v) = (none, last) := by
  show (if 0 < last ∧ |centsInterval v last| > 700
    then ((none : Option ℚ), last) else (some v, v)) = (none, last)
  rw [if_pos ⟨h1, h2⟩]

lemma centsInterval_double {t : ℚ} (ht : 0 < t) : centsInterval (2 * t) t = 1200 := by
  unfold centsInterval
  have ht' : ((t : ℚ) : ℝ) ≠ 0 := Rat.cast_ne_zero.2 ht.ne'
  have h2 : ((2 * t : ℚ) : ℝ) / ((t : ℚ) : ℝ) = 2 := by
    push_cast
    rw [mul_div_assoc, div_self ht', mul_one]
  rw [h2, Real.logb_self_eq_one (by norm_num)]
  norm_num

lemma octaveAux_eq_specAux (l : List (Option ℚ)) :
    (∀ q : ℚ, some q ∈ l → 0 < q) →
    octaveFilterAux 0 l = octaveFilterSpecAux none l ∧
    ∀ L : ℚ, 0 < L → octaveFilterAux L l = octaveFilterSpecAux (some L) l := by
  induction l with
  | nil => exact fun _ => ⟨rfl, fun _ _ => rfl⟩
  | cons x rest ih =>
    intro hpos
    have hrest : ∀ q : ℚ, some q ∈ rest → 0 < q :=
      fun q hq => hpos q (List.mem_cons_of_mem _ hq)
    obtain ⟨ih0, ihL⟩ := ih hrest
    cases x with
    | none =>
      constructor
      · simp only [octaveFilterAux, octaveFilterSpecAux, octaveStep]
        rw [ih0]
      · intro L hL
        simp only [octaveFilterAux, octaveFilterSpecAux, octaveStep]
        rw [ihL L hL]
    | some v =>
      have hv : 0 < v := hpos v (by simp)
      constructor
      · simp only [octaveFilterAux, octaveFilterSpecAux]
        rw [octaveStep_keep (fun h => absurd h.1 (lt_irrefl 0))]
        dsimp only
        rw [ihL v hv]
      · intro L hL
        simp only [octaveFilterAux, octaveFilterSpecAux]
        by_cases hc : |centsInterval v L| > 700
        · rw [octaveStep_reject hL hc, if_pos hc]
          dsimp only
          rw [ihL L hL]
        · rw [octaveStep_keep (by tauto), if_neg hc]
          dsimp only
          rw [ihL v hv]

lemma octaveFilterAux_append (last : ℚ) (xs ys : List (Option ℚ)) :
    octaveFilterAux last (xs ++ ys)
      = octaveFilterAux last xs ++ octaveFilterAux (octaveLastState last xs) ys := by
  induction xs generalizing last with
  | nil => simp [octaveFilterAux, octaveLastState]
  | cons x rest ih =>
    simp only [List.cons_append, octaveFilterAux, List.append_eq]
    rw [ih]
    simp [octaveLastState]

lemma octaveFilterAux_length (last : ℚ) (l : List (Option ℚ)) :
    (octaveFilterAux last l).length = l.length := by
  induction l generalizing last with
  | nil => rfl
  | cons x rest ih => simp [octaveFilterAux, ih]

/-- C2: the octave-jump suppression pass is a single causal scan carrying
one `last_valid` value seeded as "none": it agrees with the spec-worded
scan (skip NaN frames; reject a valid frame, leaving `last_valid`
unchanged, exactly when a previous valid pitch exists and the interval
exceeds 700 cents; accept it and advance `last_valid` otherwise) on every
positive-frequency track; no earlier frame is ever revised (the output on
a prefix is the prefix of the output); and a track holding 300 Hz, then
600 Hz for exactly one frame, then 300 Hz again has only that one frame
invalidated. -/
theorem C2_octave_scan_causal :
    (∀ track : List (Option ℚ), (∀ q : ℚ, some q ∈ track → 0 < q) →
      octaveFilter track = octaveFilterSpec track) ∧
    (∀ xs ys : List (Option ℚ),
      (octaveFilter (xs ++ ys)).take xs.length = octaveFilter xs) ∧
    octaveFilter [some 300, some 300, some 600, some 300]
      = [some 300, some 300, none, some 300] := by
  refine ⟨?_, ?_, ?_⟩
  · intro track hpos
    exact (octaveAux_eq_specAux track hpos).1
  · intro xs ys
    unfold octaveFilter
    rw [octaveFilterAux_append, ← octaveFilterAux_length 0 xs]
    exact List.take_left _ _
  · have h300 : (300 : ℚ) ≠ 0 := by norm_num
    have e1 : octaveStep 0 (some (300 : ℚ)) = (some 300, 300) :=
      octaveStep_keep (fun h => absurd h.1 (lt_irrefl 0))
    have e2 : octaveStep 300 (some (300 : ℚ)) = (some 300, 300) := by
      refine octaveStep_keep ?_
      intro h
      have h2 := h.2
      rw [centsInterval_self h300] at h2
      norm_num at h2
    have e3 : octaveStep 300 (some (600 : ℚ)) = (none, 300) := by
      refine octaveStep_reject (by norm_num) ?_
      rw [show (600 : ℚ) = 2 * 300 by norm_num, centsInterval_double (by norm_num)]
      norm_num
    unfold octaveFilter
    simp only [octaveFilterAux, e1, e2, e3]

/-- Witness for C2 on concrete tracks: agreement with the spec-worded scan
and the causal prefix property. -/
theorem C2_witness :
    octaveFilter [some 300, none] = octaveFilterSpec [some 300, none] ∧
    (octaveFilter ([some 300] ++ [some 600])).take [some (300 : ℚ)].length
      = octaveFilter [some 300] := by
  constructor
  · refine C2_octave_scan_causal.1 [some 300, none] ?_
    intro q hq
    simp at hq
    rw [hq]
    norm_num
  · exact C2_octave_scan_causal.2.1 [some 300] [some 600]

/- ## C10 -/

lemma octaveFilterAux_replicate_same {a : ℚ} (ha : 0 < a) (k : ℕ)
    (rest : List (Option ℚ)) :
    octaveFilterAux a (List.replicate k (some a) ++ rest)
      = List.replicate k (some a) ++ octaveFilterAux a rest := by
  induction k with
  | zero => simp
  | succ k ih =>
    rw [List.replicate_succ, List.cons_append]
    simp only [octaveFilterAux]
    rw [octaveStep_keep ?_]
    · dsimp only
      rw [ih, List.cons_append]
    · intro h
      have h2 := h.2
      rw [centsInterval_self ha.ne'] at h2
      norm_num at h2

lemma octaveFilterAux_replicate_reject {a b : ℚ} (ha : 0 < a)
    (hjump : |centsInterval b a| > 700) (m : ℕ) :
    octaveFilterAux a (List.replicate m (some b)) = List.replicate m none := by
  induction m with
  | zero => rfl
  | succ m ih =>
    rw [List.replicate_succ]
    simp only [octaveFilterAux]
    rw [octaveStep_reject ha hjump]
    dsimp only
    rw [ih, List.replicate_succ]

/-- C10: the scan's carried `last_valid` only ever advances to a frequency
within 700 cents of the previously accepted value (otherwise it is left
unchanged); consequently a track of n frames at frequency a followed by m
frames at frequency b with the a→b interval beyond 700 cents has all m
trailing frames invalidated — the filter permanently rejects the new level. -/
theorem C10_octave_invariant_sustained_leap :
    (∀ L v : ℚ, 0 < L →
      (octaveStep L (some v)).2 = L ∨
      ((octaveStep L (some v)).2 = v ∧ |centsInterval v L| ≤ 700)) ∧
    (∀ (a b : ℚ) (n m : ℕ), 0 < a → 0 < b → 0 < n →
      |centsInterval b a| > 700 →
      octaveFilter (List.replicate n (some a) ++ List.replicate m (some b))
        = List.replicate n (some a) ++ List.replicate m (none : Option ℚ)) := by
  constructor
  · intro L v hL
    by_cases hc : |centsInterval v L| > 700
    · left
      rw [octaveStep_reject hL hc]
    · right
      rw [octaveStep_keep (by tauto)]
      exact ⟨rfl, le_of_not_lt hc⟩
  · intro a b n m ha hb hn hjump
    cases n with
    | zero => omega
    | succ k =>
      rw [List.replicate_succ, List.cons_append]
      unfold octaveFilter
      simp only [octaveFilterAux]
      rw [octaveStep_keep (fun h => absurd h.1 (lt_irrefl 0))]
      dsimp only
      rw [octaveFilterAux_replicate_same ha k _,
        octaveFilterAux_replicate_reject ha hjump m, List.cons_append]

/-- Witness for C10 at a concrete one-frame 300 Hz run followed by two
600 Hz frames (a 1200-cent leap): both trailing frames are invalidated. -/
theorem C10_witness :
    ((octaveStep 300 (some 600)).2 = 300 ∨
      ((octaveStep 300 (some 600)).2 = 600 ∧ |centsInterval 600 300| ≤ 700)) ∧
    octaveFilter (List.replicate 1 (some 300) ++ List.replicate 2 (some 600))
      = List.replicate 1 (some 300) ++ List.replicate 2 (none : Option ℚ) := by
  have hc : |centsInterval 600 300| > 700 := by
    rw [show (600 : ℚ) = 2 * 300 by norm_num, centsInterval_double (by norm_num)]
    norm_num
  exact ⟨C10_octave_invariant_sustained_leap.1 300 600 (by norm_num),
    C10_octave_invariant_sustained_leap.2 300 600 1 2 (by norm_num) (by norm_num)
      (by norm_num) hc⟩

/- ## C6 -/

lemma medianQ_perm {l l' : List ℚ} (h : l.Perm l') : medianQ l = medianQ l' := by
  have hs : List.insertionSort (· ≤ ·) l = List.insertionSort (· ≤ ·) l' :=
    List.eq_of_perm_of_sorted
      (((List.perm_insertionSort _ l).trans h).trans
        (List.perm_insertionSort _ l').symm)
      (List.sorted_insertionSort _ l) (List.sorted_insertionSort _ l')
  simp only [medianQ]
  rw [hs, h.length_eq]

lemma medianQ_sorted_twenty {l : List ℚ} (hlen : l.length = 20)
    (hs : List.Sorted (· ≤ ·) l) :
    medianQ l = (l.getD 9 0 + l.getD 10 0) / 2 := by
  simp only [medianQ]
  rw [hs.insertionSort_eq, hlen]
  norm_num

lemma medianQ_pair_of_sorted_lt {l : List ℚ} (hlen : l.length = 20)
    (hs : List.Sorted (· < ·) l) :
    medianQ l = (l.getD 9 0 + l.getD 10 0) / 2 :=
  medianQ_sorted_twenty hlen (hs.imp fun h => le_of_lt h)

lemma getD_reverse_twenty {l : List ℚ} (hlen : l.length = 20) (i : ℕ) (hi : i < 20) :
    l.reverse.getD i 0 = l.getD (19 - i) 0 := by
  rw [List.getD_eq_getElem _ _ (by simpa [hlen] using hi),
    List.getD_eq_getElem _ _ (by omega)]
  rw [List.getElem_reverse]
  congr 1
  omega

lemma medianQ_pair_of_sorted_gt {l : List ℚ} (hlen : l.length = 20)
    (hs : List.Sorted (· > ·) l) :
    medianQ l = (l.getD 9 0 + l.getD 10 0) / 2 := by
  have hrev : List.Sorted (· < ·) l.reverse := List.pairwise_reverse.2 hs
  have hlenr : l.reverse.length = 20 := by simp [hlen]
  rw [medianQ_perm (List.reverse_perm l).symm, medianQ_pair_of_sorted_lt hlenr hrev,
    getD_reverse_twenty hlen 9 (by norm_num), getD_reverse_twenty hlen 10 (by norm_num)]
  norm_num
  ring

lemma getD_take_twenty (v : List ℚ) (i : ℕ) (hi : i < 20) (h : 20 ≤ v.length) :
    (v.take 20).getD i 0 = v.getD i 0 := by
  rw [List.getD_eq_getElem _ _ (by rw [List.length_take]; omega),
    List.getD_eq_getElem _ _ (by omega)]
  rw [List.getElem_take]

lemma getD_drop_at (v : List ℚ) (s i : ℕ) (h : s + i < v.length) :
    (v.drop s).getD i 0 = v.getD (s + i) 0 := by
  rw [List.getD_eq_getElem _ _ (by rw [List.length_drop]; omega),
    List.getD_eq_getElem _ _ (by omega)]
  rw [List.getElem_drop]

lemma sorted_lt_getD {v : List ℚ} (hs : List.Sorted (· < ·) v) {i j : ℕ}
    (hij : i < j) (hj : j < v.length) : v.getD i 0 < v.getD j 0 := by
  rw [List.getD_eq_getElem _ _ (by omega), List.getD_eq_getElem _ _ hj]
  exact List.pairwise_iff_getElem.1 hs i j (by omega) hj hij

lemma sorted_gt_getD {v : List ℚ} (hs : List.Sorted (· > ·) v) {i j : ℕ}
    (hij : i < j) (hj : j < v.length) : v.getD j 0 < v.getD i 0 := by
  rw [List.getD_eq_getElem _ _ hj, List.getD_eq_getElem _ _ (by omega)]
  exact List.pairwise_iff_getElem.1 hs i j (by omega) hj hij

lemma medianQ_pos {l : List ℚ} (hne : l ≠ []) (hpos : ∀ x ∈ l, 0 < x) :
    0 < medianQ l := by
  have hsort := List.perm_insertionSort (· ≤ ·) l
  have hlen : (List.insertionSort (· ≤ ·) l).length = l.length := hsort.length_eq
  have hmem : ∀ i, i < l.length → 0 < (List.insertionSort (· ≤ ·) l).getD i 0 := by
    intro i h
    rw [List.getD_eq_getElem _ _ (by omega)]
    exact hpos _ (hsort.subset (List.getElem_mem _))
  have hn : l.length ≠ 0 := fun hc => hne (List.length_eq_zero.1 hc)
  simp only [medianQ]
  by_cases hodd : l.length % 2 = 1
  · rw [if_neg hn, if_pos hodd]
    exact hmem _ (Nat.div_lt_self (Nat.pos_of_ne_zero hn) one_lt_two)
  · rw [if_neg hn, if_neg hodd]
    have ha := hmem (l.length / 2 - 1) (by omega)
    have hb := hmem (l.length / 2) (by omega)
    positivity

lemma take_twenty_pos {v : List ℚ} (h : 40 < v.length) (hpos : ∀ x ∈ v, 0 < x) :
    0 < medianQ (v.take 20) := by
  refine medianQ_pos (List.ne_nil_of_length_pos ?_) ?_
  · rw [List.length_take]
    omega
  · exact fun x hx => hpos x ((List.take_sublist _ _).subset hx)

lemma drop_last_twenty_pos {v : List ℚ} (h : 40 < v.length) (hpos : ∀ x ∈ v, 0 < x) :
    0 < medianQ (v.drop (v.length - 20)) := by
  refine medianQ_pos (List.ne_nil_of_length_pos ?_) ?_
  · rw [List.length_drop]
    omega
  · exact fun x hx => hpos x ((List.drop_sublist _ _).subset hx)

lemma driftOf_of_gt {v : List ℚ} (h : 40 < v.length) (hpos : ∀ x ∈ v, 0 < x) :
    driftOf v = 1200 * Real.logb 2
      ((medianQ (v.drop (v.length - 20)) : ℝ) / (medianQ (v.take 20) : ℝ)) := by
  simp only [driftOf]
  rw [if_pos h, if_pos ⟨take_twenty_pos h hpos, drop_last_twenty_pos h hpos⟩]

lemma median_windows_lt {v : List ℚ} (h : 40 < v.length)
    (hs : List.Sorted (· < ·) v) :
    medianQ (v.take 20) < medianQ (v.drop (v.length - 20)) := by
  have hA : (v.take 20).length = 20 := by
    rw [List.length_take]
    omega
  have hB : (v.drop (v.length - 20)).length = 20 := by
    rw [List.length_drop]
    omega
  have hsA : List.Sorted (· < ·) (v.take 20) := hs.sublist (List.take_sublist _ _)
  have hsB : List.Sorted (· < ·) (v.drop (v.length - 20)) :=
    hs.sublist (List.drop_sublist _ _)
  rw [medianQ_pair_of_sorted_lt hA hsA, medianQ_pair_of_sorted_lt hB hsB]
  rw [getD_take_twenty v 9 (by omega) (by omega), getD_take_twenty v 10 (by omega) (by omega),
    getD_drop_at v (v.length - 20) 9 (by omega), getD_drop_at v (v.length - 20) 10 (by omega)]
  have h1 : v.getD 9 0 < v.getD (v.length - 20 + 9) 0 := sorted_lt_getD hs (by omega) (by omega)
  have h2 : v.getD 10 0 < v.getD (v.length - 20 + 10) 0 := sorted_lt_getD hs (by omega) (by omega)
  linarith

lemma median_windows_gt {v : List ℚ} (h : 40 < v.length)
    (hs : List.Sorted (· > ·) v) :
    medianQ (v.drop (v.length - 20)) < medianQ (v.take 20) := by
  have hA : (v.take 20).length = 20 := by
    rw [List.length_take]
    omega
  have hB : (v.drop (v.length - 20)).length = 20 := by
    rw [List.length_drop]
    omega
  have hsA : List.Sorted (· > ·) (v.take 20) := hs.sublist (List.take_sublist _ _)
  have hsB : List.Sorted (· > ·) (v.drop (v.length - 20)) :=
    hs.sublist (List.drop_sublist _ _)
  rw [medianQ_pair_of_sorted_gt hA hsA, medianQ_pair_of_sorted_gt hB hsB]
  rw [getD_take_twenty v 9 (by omega) (by omega), getD_take_twenty v 10 (by omega) (by omega),
    getD_drop_at v (v.length - 20) 9 (by omega), getD_drop_at v (v.length - 20) 10 (by omega)]
  have h1 : v.getD (v.length - 20 + 9) 0 < v.getD 9 0 := sorted_gt_getD hs (by omega) (by omega)
  have h2 : v.getD (v.length - 20 + 10) 0 < v.getD 10 0 := sorted_gt_getD hs (by omega) (by omega)
  linarith

/-- C6: drift is computed only when more than 40 voiced frames exist (it
stays at the 999.0 sentinel otherwise), in which case it equals the cents
interval from the median of the first 20 voiced frames to the median of the
last 20; hence a strictly increasing voiced series gives positive drift and
a strictly decreasing one gives negative drift. -/
theorem C6_drift_windows_monotone (f0 : List (Option ℚ)) (probs : List ℚ)
    (t : Option ℚ) (part : String) :
    ((voicedF0 f0 probs part).length ≤ 40 →
      (calculate_metrics f0 probs t part).drift = 999) ∧
    (40 < (voicedF0 f0 probs part).length →
      (calculate_metrics f0 probs t part).drift
        = 1200 * Real.logb 2
            ((medianQ ((voicedF0 f0 probs part).drop
                ((voicedF0 f0 probs part).length - 20)) : ℝ)
              / (medianQ ((voicedF0 f0 probs part).take 20) : ℝ)) ∧
      (List.Sorted (· < ·) (voicedF0 f0 probs part) →
        0 < (calculate_metrics f0 probs t part).drift) ∧
      (List.Sorted (· > ·) (voicedF0 f0 probs part) →
        (calculate_metrics f0 probs t part).drift < 0)) := by
  have hpos : ∀ x ∈ voicedF0 f0 probs part, 0 < x := fun _ hx => voicedF0_pos hx
  constructor
  · intro h
    by_cases hv : voicedF0 f0 probs part = []
    · rw [calculate_metrics_of_empty f0 probs t part hv]
    · rw [calculate_metrics_of_ne f0 probs t part hv]
      exact driftOf_of_le h
  · intro h
    have hv : voicedF0 f0 probs part ≠ [] := by
      intro hc
      rw [hc] at h
      simp at h
    have hdrift : (calculate_metrics f0 probs t part).drift
        = driftOf (voicedF0 f0 probs part) := by
      rw [calculate_metrics_of_ne f0 probs t part hv]
    have hformula := driftOf_of_gt h hpos
    have hS : 0 < medianQ ((voicedF0 f0 probs part).take 20) := take_twenty_pos h hpos
    have hE : 0 < medianQ ((voicedF0 f0 probs part).drop
        ((voicedF0 f0 probs part).length - 20)) := drop_last_twenty_pos h hpos
    refine ⟨by rw [hdrift, hformula], ?_, ?_⟩
    · intro hsort
      rw [hdrift, hformula]
      have hlt := median_windows_lt h hsort
      have hdiv : (1 : ℝ) < ((medianQ ((voicedF0 f0 probs part).drop
          ((voicedF0 f0 probs part).length - 20)) : ℚ) : ℝ)
            / ((medianQ ((voicedF0 f0 probs part).take 20) : ℚ) : ℝ) := by
        rw [one_lt_div (by exact_mod_cast hS)]
        exact_mod_cast hlt
      have := Real.logb_pos (show (1 : ℝ) < 2 by norm_num) hdiv
      exact mul_pos (by norm_num) this
    · intro hsort
      rw [hdrift, hformula]
      have hlt := median_windows_gt h hsort
      have hdiv : ((medianQ ((voicedF0 f0 probs part).drop
          ((voicedF0 f0 probs part).length - 20)) : ℚ) : ℝ)
            / ((medianQ ((voicedF0 f0 probs part).take 20) : ℚ) : ℝ) < 1 := by
        rw [div_lt_one (by exact_mod_cast hS)]
        exact_mod_cast hlt
      have hpos' : (0 : ℝ) < ((medianQ ((voicedF0 f0 probs part).drop
          ((voicedF0 f0 probs part).length - 20)) : ℚ) : ℝ)
            / ((medianQ ((voicedF0 f0 probs part).take 20) : ℚ) : ℝ) := by
        apply div_pos
        · exact_mod_cast hE
        · exact_mod_cast hS
      have := Real.logb_neg (show (1 : ℝ) < 2 by norm_num) hpos' hdiv
      exact mul_neg_of_pos_of_neg (by norm_num) this

/-- Witness for C6: a strictly rising 41-frame ramp from 300 Hz to 340 Hz
(all frames valid for a Soprano) has positive drift. -/
theorem C6_witness :
    0 < (calculate_metrics
      [some 300, some 301, some 302, some 303, some 304, some 305, some 306, some 307, some 308, some 309, some 310, some 311, some 312, some 313, some 314, some 315, some 316, some 317, some 318, some 319, some 320, some 321, some 322, some 323, some 324, some 325, some 326, some 327, some 328, some 329, some 330, some 331, some 332, some 333, some 334, some 335, some 336, some 337, some 338, some 339, some 340]
      [1, 1, 1, 1, 1, 1, 1, 1, 1, 1, 1, 1, 1, 1, 1, 1, 1, 1, 1, 1, 1, 1, 1, 1, 1, 1, 1, 1, 1, 1, 1, 1, 1, 1, 1, 1, 1, 1, 1, 1, 1] none "Soprano").drift := by
  have hv : voicedF0
      [some 300, some 301, some 302, some 303, some 304, some 305, some 306, some 307, some 308, some 309, some 310, some 311, some 312, some 313, some 314, some 315, some 316, some 317, some 318, some 319, some 320, some 321, some 322, some 323, some 324, some 325, some 326, some 327, some 328, some 329, some 330, some 331, some 332, some 333, some 334, some 335, some 336, some 337, some 338, some 339, some 340]
      [1, 1, 1, 1, 1, 1, 1, 1, 1, 1, 1, 1, 1, 1, 1, 1, 1, 1, 1, 1, 1, 1, 1, 1, 1, 1, 1, 1, 1, 1, 1, 1, 1, 1, 1, 1, 1, 1, 1, 1, 1] "Soprano"
      = [300, 301, 302, 303, 304, 305, 306, 307, 308, 309, 310, 311, 312, 313, 314, 315, 316, 317, 318, 319, 320, 321, 322, 323, 324, 325, 326, 327, 328, 329, 330, 331, 332, 333, 334, 335, 336, 337, 338, 339, 340] := by
    norm_num [voicedF0_cons, voicedF0_nil, validFrame, voiceLimits, PASSAGGIO_CRITERIA]
  have hlen : 40 < (voicedF0
      [some 300, some 301, some 302, some 303, some 304, some 305, some 306, some 307, some 308, some 309, some 310, some 311, some 312, some 313, some 314, some 315, some 316, some 317, some 318, some 319, some 320, some 321, some 322, some 323, some 324, some 325, some 326, some 327, some 328, some 329, some 330, some 331, some 332, some 333, some 334, some 335, some 336, some 337, some 338, some 339, some 340]
      [1, 1, 1, 1, 1, 1, 1, 1, 1, 1, 1, 1, 1, 1, 1, 1, 1, 1, 1, 1, 1, 1, 1, 1, 1, 1, 1, 1, 1, 1, 1, 1, 1, 1, 1, 1, 1, 1, 1, 1, 1] "Soprano").length := by
    rw [hv]
    decide
  have hsort : List.Sorted (· < ·) (voicedF0
      [some 300, some 301, some 302, some 303, some 304, some 305, some 306, some 307, some 308, some 309, some 310, some 311, some 312, some 313, some 314, some 315, some 316, some 317, some 318, some 319, some 320, some 321, some 322, some 323, some 324, some 325, some 326, some 327, some 328, some 329, some 330, some 331, some 332, some 333, some 334, some 335, some 336, some 337, some 338, some 339, some 340]
      [1, 1, 1, 1, 1, 1, 1, 1, 1, 1, 1, 1, 1, 1, 1, 1, 1, 1, 1, 1, 1, 1, 1, 1, 1, 1, 1, 1, 1, 1, 1, 1, 1, 1, 1, 1, 1, 1, 1, 1, 1] "Soprano") := by
    rw [hv]
    decide
  exact ((C6_drift_windows_monotone
    [some 300, some 301, some 302, some 303, some 304, some 305, some 306, some 307, some 308, some 309, some 310, some 311, some 312, some 313, some 314, some 315, some 316, some 317, some 318, some 319, some 320, some 321, some 322, some 323, some 324, some 325, some 326, some 327, some 328, some 329, some 330, some 331, some 332, some 333, some 334, some 335, some 336, some 337, some 338, some 339, some 340]
    [1, 1, 1, 1, 1, 1, 1, 1, 1, 1, 1, 1, 1, 1, 1, 1, 1, 1, 1, 1, 1, 1, 1, 1, 1, 1, 1, 1, 1, 1, 1, 1, 1, 1, 1, 1, 1, 1, 1, 1, 1] none "Soprano").2 hlen).2.1 hsort
